import Mathlib

/-!
Verification of the content_creator repository's scene validation and
rate-limited batch generation logic, shallowly embedded from the Python
sources (sceneCreator.py, imgCreator.py, streamlit_image_handler.py,
테스트.py).
-/

/-- Scene model from sceneCreator.py: script text plus main keyword. -/
structure Scene where
  script : String
  main_keyword : String
deriving DecidableEq

/-- Key string for scene number i, as built by the Python sources. -/
def sceneKey (i : Nat) : String := "scene_" ++ toString i

/-- The 18 required keys scene_1 .. scene_18. -/
def requiredSceneKeys : List String := (List.range 18).map (fun i => sceneKey (i + 1))

/-- The loop in Result.validate_18_scenes (sceneCreator.py lines 25-28): the first
index i in 1..18 whose key scene_i is absent from the candidate mapping's keys. -/
def findMissingScene (keys : List String) : Option Nat :=
  (List.range 18).find? (fun i => ! keys.contains (sceneKey (i + 1)))

/-- Result.validate_18_scenes from sceneCreator.py: reject when the entry count is
not 18 (error naming the count), then reject on the first missing required key,
otherwise return the mapping unchanged.  The pydantic dict is embedded as an
association list with distinct keys. -/
def validate_18_scenes (v : List (String × Scene)) : Except String (List (String × Scene)) :=
  if v.length ≠ 18 then
    Except.error ("Must have exactly 18 scenes, got " ++ toString v.length)
  else
    match findMissingScene (v.map Prod.fst) with
    | some i => Except.error ("Missing required scene: " ++ sceneKey (i + 1))
    | none => Except.ok v

/-- A concrete well-formed 18-scene mapping, used to witness the validator theorems. -/
def goodScenes : List (String × Scene) :=
  (List.range 18).map (fun i => (sceneKey (i + 1), ⟨"line", "kw"⟩))

/-- A concrete 18-entry mapping missing scene_7 but holding an extra 18th key. -/
def scenesMissing7 : List (String × Scene) :=
  ((List.range 18).filter (fun i => i + 1 ≠ 7)).map (fun i => (sceneKey (i + 1), ⟨"line", "kw"⟩))
    ++ [("scene_extra", ⟨"line", "kw"⟩)]

/-- The loop body of StreamlitImageHandler.create_multiple_images_with_progress
(streamlit_image_handler.py lines 148-180): for each (idx, prompt), a rate-limit
wait runs first whenever idx > 0, then the per-item generation (which catches its
own exceptions and yields an Option) is appended to the results.  The state is
the results list together with the number of rate-limit waits performed. -/
def cmiwStep (op : Nat → String → Option String)
    (acc : List (Option String) × Nat) (ip : Nat × String) :
    List (Option String) × Nat :=
  let delays := if ip.1 > 0 then acc.2 + 1 else acc.2
  (acc.1 ++ [op ip.1 ip.2], delays)

/-- StreamlitImageHandler.create_multiple_images_with_progress, embedded with the
per-item operation op (idx, prompt ↦ path or None) made explicit.  Returns the
results list and the count of inter-item rate-limit delays. -/
def create_multiple_images_with_progress (prompts : List String)
    (op : Nat → String → Option String) : List (Option String) × Nat :=
  prompts.enum.foldl (cmiwStep op) ([], 0)

/-- The loop body of generate_all_scenes_with_rate_limit (imgCreator.py lines
112-141).  op scene_num = none models the try-block raising (caught, scene
recorded as None, no sleep); op scene_num = some r models a normal return of r
from generate_image, after which the 12-second sleep runs when scene_num < 18. -/
def gaswrlStep (op : Nat → Option (Option String))
    (acc : List (Nat × Option String) × Nat) (scene_num : Nat) :
    List (Nat × Option String) × Nat :=
  match op scene_num with
  | some image_path =>
      (acc.1 ++ [(scene_num, image_path)],
       if scene_num < 18 then acc.2 + 1 else acc.2)
  | none => (acc.1 ++ [(scene_num, none)], acc.2)

/-- generate_all_scenes_with_rate_limit from imgCreator.py: iterate scene numbers
1..18, recording each outcome, sleeping after a normally-returning scene that is
not the last.  Returns the results mapping and the number of sleeps performed. -/
def generate_all_scenes_with_rate_limit (op : Nat → Option (Option String)) :
    List (Nat × Option String) × Nat :=
  ((List.range 18).map (fun i => i + 1)).foldl (gaswrlStep op) ([], 0)

/-- The inner body of one retry iteration (streamlit_image_handler.py lines
208-233): a success stores the result under the item's index, a failure appends
the item to remaining_failures. -/
def retryStep (op1 : Nat → String → Option String)
    (acc : List (Nat × String) × List (Nat × String)) (ip : Nat × String) :
    List (Nat × String) × List (Nat × String) :=
  match op1 ip.1 ip.2 with
  | some r => (acc.1 ++ [(ip.1, r)], acc.2)
  | none => (acc.1, acc.2 ++ [ip])

/-- One round of StreamlitImageHandler.retry_failed_images: attempt every
still-failed (idx, prompt). -/
def retryRound (op1 : Nat → String → Option String)
    (failed : List (Nat × String)) (results : List (Nat × String)) :
    List (Nat × String) × List (Nat × String) :=
  failed.foldl (retryStep op1) (results, [])

/-- The round loop of retry_failed_images: fuel is the number of rounds still
allowed, rn the current retry_num.  Stops when the failed list is empty before or
after a round.  Returns (retry_results, remaining failures, rounds executed). -/
def retryLoop (op : Nat → Nat → String → Option String) :
    Nat → Nat → List (Nat × String) → List (Nat × String) →
    List (Nat × String) × List (Nat × String) × Nat
  | 0, _, failed, results => (results, failed, 0)
  | fuel + 1, rn, failed, results =>
    if failed.isEmpty then (results, failed, 0)
    else
      let step := retryRound (op rn) failed results
      if step.2.isEmpty then (step.1, step.2, 1)
      else
        let rest := retryLoop op fuel (rn + 1) step.2 step.1
        (rest.1, rest.2.1, rest.2.2 + 1)

/-- StreamlitImageHandler.retry_failed_images: run up to max_retries rounds over the
failed (idx, prompt) pairs, each round retrying only the pairs still failed. -/
def retry_failed_images (op : Nat → Nat → String → Option String)
    (failed_prompts : List (Nat × String)) (max_retries : Nat) :
    List (Nat × String) × List (Nat × String) × Nat :=
  retryLoop op max_retries 0 failed_prompts []

/-- The digit loop of col_num_to_letter (테스트.py lines 91-97): while n > 0,
n, r := divmod(n - 1, 26); prepend chr(65 + r). -/
def colLetters : Nat → List Char → List Char
  | 0, acc => acc
  | n + 1, acc => colLetters (n / 26) (Char.ofNat (65 + n % 26) :: acc)

/-- col_num_to_letter from 테스트.py: spreadsheet column number to letter string. -/
def col_num_to_letter (n : Nat) : String := String.mk (colLetters n [])

/-- Interpretation of a column letter string back to its column number, reading
characters left to right with A = 1 .. Z = 26 in base 26. -/
def letter_to_num (s : String) : Nat :=
  s.data.foldl (fun a c => a * 26 + (c.toNat - 64)) 0

/-- One per-row analysis result of 테스트.py: the AI result string and the
1-based spreadsheet row index (data.Index + 2). -/
structure AnalysisResult where
  result : String
  row_index : Nat
deriving DecidableEq

/-- total_result.sort(key=lambda x: x.row_index) from 테스트.py line 137: Python's
stable ascending sort, embedded as stable merge sort on the row index. -/
def sortResults (total_result : List AnalysisResult) : List AnalysisResult :=
  total_result.mergeSort (fun a b => decide (a.row_index ≤ b.row_index))

/-- The batch_data construction of 테스트.py lines 181-190: one
(range string, value) update per analysis result, in sorted order. -/
def buildBatchData (input_sheet_name col_letter : String)
    (total_result : List AnalysisResult) : List (String × String) :=
  (sortResults total_result).map
    (fun r => (input_sheet_name ++ "!" ++ col_letter ++ toString r.row_index, r.result))

/-- generate_image from imgCreator.py lines 16-63, from the point the image bytes
are requested: on HTTP status 200 the file named output_filename (or the
timestamped default) is written and its name returned; any other status falls
off the end of the function, returning None. -/
def generate_image (selected_scene : Nat) (timestamp : String)
    (output_filename : Option String) (status_code : Nat) : Option String :=
  let fname :=
    match output_filename with
    | none => "scene_" ++ toString selected_scene ++ "_" ++ timestamp ++ ".png"
    | some f => f
  if status_code = 200 then some fname else none

/-- generate_scene_image from imgCreator.py lines 76-101: range-check the scene
number, then look the key up in the loaded scenes data, and only then run the
image generation (modeled by img, which receives the found scene). -/
def generate_scene_image (scenes : List (String × Scene)) (scene_number : Int)
    (img : Scene → Option String) : Except String (Option String) :=
  if scene_number < 1 ∨ scene_number > 18 then
    Except.error "Scene number must be between 1 and 18"
  else
    match scenes.lookup ("scene_" ++ toString scene_number) with
    | none => Except.error ("Scene " ++ toString scene_number ++ " not found in the data")
    | some scene_data => Except.ok (img scene_data)

/-- A concrete imgCreator batch in which scene 2's try-block raises (network or
generation exception) and every other scene succeeds. -/
def opSceneTwoRaises : Nat → Option (Option String) :=
  fun n => if n = 2 then none else some (some ("images/scene_" ++ toString n ++ ".png"))

/-- Value of a column letter sequence, the list-level core of letter_to_num. -/
def colVal (cs : List Char) : Nat :=
  cs.foldl (fun a c => a * 26 + (c.toNat - 64)) 0

/-- Two completion orders of the same two per-row results. -/
def resultsOrderA : List AnalysisResult := [⟨"b", 3⟩, ⟨"a", 2⟩]

/-- The other completion order of the results in resultsOrderA. -/
def resultsOrderB : List AnalysisResult := [⟨"a", 2⟩, ⟨"b", 3⟩]

/-- Per-scene output filename of the batch loop, os.path.join(output_dir,
scene_<n>.png) with the default images directory. -/
def sceneFile (k : Nat) : String := "images/scene_" ++ toString k ++ ".png"

/-! ### Helper lemmas -/

theorem requiredSceneKeys_nodup : requiredSceneKeys.Nodup := by decide

theorem requiredSceneKeys_length : requiredSceneKeys.length = 18 := by decide

theorem contains_eq_true_iff (keys : List String) (k : String) :
    keys.contains k = true ↔ k ∈ keys := by
  simp [List.contains, List.elem_iff]

/-! ### Theorems -/

/-- C1: the scene-schema validator accepts a candidate mapping unchanged exactly
when it has 18 entries whose keys are exactly scene_1 .. scene_18, and for any
mapping whose entry count is not 18 it raises the error naming that count. -/
theorem validator_accepts_iff_18_keys (v : List (String × Scene)) :
    (validate_18_scenes v = Except.ok v ↔
      (v.length = 18 ∧ ∀ k, k ∈ v.map Prod.fst ↔ k ∈ requiredSceneKeys)) ∧
    (v.length ≠ 18 →
      validate_18_scenes v = Except.error ("Must have exactly 18 scenes, got " ++ toString v.length)) := by
  constructor
  · constructor
    · intro h
      unfold validate_18_scenes at h
      by_cases hlen : v.length = 18
      · rw [if_neg (by simp [hlen])] at h
        refine ⟨hlen, ?_⟩
        cases hfind : findMissingScene (v.map Prod.fst) with
        | some i => rw [hfind] at h; cases h
        | none =>
          have hfind' : (List.range 18).find?
              (fun i => ! (v.map Prod.fst).contains (sceneKey (i + 1))) = none := hfind
          have hsub : requiredSceneKeys ⊆ v.map Prod.fst := by
            intro k hk
            simp only [requiredSceneKeys, List.mem_map, List.mem_range] at hk
            obtain ⟨i, hi, rfl⟩ := hk
            have hnone := List.find?_eq_none.mp hfind' i
              (by simp only [List.mem_range]; exact hi)
            have hct : (v.map Prod.fst).contains (sceneKey (i + 1)) = true := by
              cases hcc : (v.map Prod.fst).contains (sceneKey (i + 1)) with
              | true => rfl
              | false => exact absurd (by rw [hcc]; rfl) hnone
            exact (contains_eq_true_iff _ _).mp hct
          have hsp := List.subperm_of_subset requiredSceneKeys_nodup hsub
          have hperm := hsp.perm_of_length_le
            (by rw [requiredSceneKeys_length, List.length_map, hlen])
          intro k
          exact ⟨fun hk => hperm.symm.subset hk, fun hk => hperm.subset hk⟩
      · rw [if_pos hlen] at h; cases h
    · intro ⟨hlen, hmem⟩
      unfold validate_18_scenes
      rw [if_neg (by simp [hlen])]
      have hfind : findMissingScene (v.map Prod.fst) = none := by
        unfold findMissingScene
        rw [List.find?_eq_none]
        intro i hi
        simp only [List.mem_range] at hi
        have hk : sceneKey (i + 1) ∈ requiredSceneKeys := by
          simp only [requiredSceneKeys, List.mem_map, List.mem_range]
          exact ⟨i, hi, rfl⟩
        have hmemv := (hmem (sceneKey (i + 1))).mpr hk
        have hct := (contains_eq_true_iff (v.map Prod.fst) (sceneKey (i + 1))).mpr hmemv
        show ¬ (! (v.map Prod.fst).contains (sceneKey (i + 1))) = true
        rw [hct]
        exact Bool.false_ne_true
      rw [hfind]
  · intro hlen
    unfold validate_18_scenes
    rw [if_pos hlen]

/-- Witness for C1: a size-17 mapping is rejected with the error naming count 17. -/
theorem validator_accepts_iff_18_keys_w :
    (goodScenes.take 17).length ≠ 18 ∧
    validate_18_scenes (goodScenes.take 17)
      = Except.error ("Must have exactly 18 scenes, got " ++ toString (goodScenes.take 17).length) :=
  ⟨by decide, (validator_accepts_iff_18_keys (goodScenes.take 17)).2 (by decide)⟩

/-- C4: an 18-entry mapping in which some required key scene_i is absent is
rejected with a missing-required-scene validation error (for some absent
required key), never accepted or coerced. -/
theorem validator_rejects_missing_required_key (v : List (String × Scene)) (i : Nat)
    (hlen : v.length = 18) (hi1 : 1 ≤ i) (hi18 : i ≤ 18)
    (hmiss : sceneKey i ∉ v.map Prod.fst) :
    ∃ j, 1 ≤ j ∧ j ≤ 18 ∧ sceneKey j ∉ v.map Prod.fst ∧
      validate_18_scenes v = Except.error ("Missing required scene: " ++ sceneKey j) := by
  have hcf : (v.map Prod.fst).contains (sceneKey i) = false := by
    cases hcc : (v.map Prod.fst).contains (sceneKey i) with
    | false => rfl
    | true => exact absurd ((contains_eq_true_iff _ _).mp hcc) hmiss
  have hsome : (findMissingScene (v.map Prod.fst)).isSome := by
    unfold findMissingScene
    rw [List.find?_isSome]
    refine ⟨i - 1, by simp only [List.mem_range]; omega, ?_⟩
    show (! (v.map Prod.fst).contains (sceneKey (i - 1 + 1))) = true
    have hii : i - 1 + 1 = i := by omega
    rw [hii, hcf]
    rfl
  obtain ⟨j, hj⟩ := Option.isSome_iff_exists.mp hsome
  have hj' : (List.range 18).find?
      (fun i => ! (v.map Prod.fst).contains (sceneKey (i + 1))) = some j := hj
  have hpj0 := List.find?_some hj'
  have hpj : (! (v.map Prod.fst).contains (sceneKey (j + 1))) = true := hpj0
  have hjr := List.mem_of_find?_eq_some hj'
  simp only [List.mem_range] at hjr
  refine ⟨j + 1, by omega, by omega, ?_, ?_⟩
  · intro hc
    have := (contains_eq_true_iff (v.map Prod.fst) (sceneKey (j + 1))).mpr hc
    rw [this] at hpj
    cases hpj
  · unfold validate_18_scenes
    rw [if_neg (by simp [hlen]), hj]

/-- Witness for C4 on the concrete 18-entry mapping missing scene_7. -/
theorem validator_rejects_missing_required_key_w :
    scenesMissing7.length = 18 ∧ 1 ≤ 7 ∧ 7 ≤ 18 ∧ sceneKey 7 ∉ scenesMissing7.map Prod.fst ∧
    ∃ j, 1 ≤ j ∧ j ≤ 18 ∧ sceneKey j ∉ scenesMissing7.map Prod.fst ∧
      validate_18_scenes scenesMissing7
        = Except.error ("Missing required scene: " ++ sceneKey j) :=
  ⟨by decide, by decide, by decide, by decide,
    validator_rejects_missing_required_key scenesMissing7 7
      (by decide) (by decide) (by decide) (by decide)⟩

theorem cmiw_foldl_delays (op : Nat → String → Option String) :
    ∀ (l : List (Nat × String)) (acc : List (Option String) × Nat),
      (l.foldl (cmiwStep op) acc).2 = acc.2 + l.countP (fun ip => decide (ip.1 > 0))
  | [], acc => by simp
  | ip :: l, acc => by
    rw [List.foldl_cons, cmiw_foldl_delays op l]
    simp only [cmiwStep, List.countP_cons]
    by_cases h : ip.1 > 0
    · simp [h]
      omega
    · simp [h]

theorem cmiw_foldl_results (op : Nat → String → Option String) :
    ∀ (l : List (Nat × String)) (acc : List (Option String) × Nat),
      (l.foldl (cmiwStep op) acc).1 = acc.1 ++ l.map (fun ip => op ip.1 ip.2)
  | [], acc => by simp
  | ip :: l, acc => by
    rw [List.foldl_cons, cmiw_foldl_results op l]
    simp [cmiwStep]

theorem countP_range_pos : ∀ n : Nat, (List.range n).countP (fun i => decide (i > 0)) = n - 1
  | 0 => by simp
  | n + 1 => by
    rw [List.range_succ, List.countP_append]
    cases n with
    | zero => simp
    | succ m =>
      rw [countP_range_pos (m + 1)]
      simp only [List.countP_cons, List.countP_nil]
      have hm : decide (m + 1 > 0) = true := by simp
      rw [hm]
      simp

/-- The streamlit batch runner performs exactly N-1 rate-limit waits, whatever
the per-item outcomes are. -/
theorem cmiw_delays (prompts : List String) (op : Nat → String → Option String) :
    (create_multiple_images_with_progress prompts op).2 = prompts.length - 1 := by
  unfold create_multiple_images_with_progress
  rw [cmiw_foldl_delays]
  have h1 : prompts.enum.countP (fun ip => decide (ip.1 > 0))
      = (prompts.enum.map Prod.fst).countP (fun i => decide (i > 0)) := by
    rw [List.countP_map]
    rfl
  rw [h1, List.enum_map_fst, countP_range_pos]
  simp

/-- The streamlit batch runner records every item's outcome in order. -/
theorem cmiw_results (prompts : List String) (op : Nat → String → Option String) :
    (create_multiple_images_with_progress prompts op).1
      = prompts.enum.map (fun ip => op ip.1 ip.2) := by
  unfold create_multiple_images_with_progress
  rw [cmiw_foldl_results]
  rfl

theorem gaswrl_foldl (op : Nat → Option (Option String)) :
    ∀ (l : List Nat) (acc : List (Nat × Option String) × Nat),
      l.foldl (gaswrlStep op) acc
        = (acc.1 ++ l.map (fun n => (n, (op n).join)),
           acc.2 + (l.filter (fun n => decide (n < 18) && (op n).isSome)).length)
  | [], acc => by simp
  | n :: l, acc => by
    rw [List.foldl_cons, gaswrl_foldl op l]
    cases hop : op n with
    | none =>
      simp [gaswrlStep, hop, Option.join]
    | some r =>
      by_cases h18 : n < 18
      · simp [gaswrlStep, hop, h18, Option.join]
        omega
      · simp [gaswrlStep, hop, h18, Option.join]

/-- Results mapping of the imgCreator batch: every scene 1..18 gets one entry,
None when the scene's try-block raised or generate_image returned None. -/
theorem gaswrl_results (op : Nat → Option (Option String)) :
    (generate_all_scenes_with_rate_limit op).1
      = ((List.range 18).map (fun i => i + 1)).map (fun n => (n, (op n).join)) := by
  unfold generate_all_scenes_with_rate_limit
  rw [gaswrl_foldl]
  simp

/-- Delay count of the imgCreator batch: one sleep per non-final scene whose
try-block did not raise. -/
theorem gaswrl_delays (op : Nat → Option (Option String)) :
    (generate_all_scenes_with_rate_limit op).2
      = (((List.range 18).map (fun i => i + 1)).filter
          (fun n => decide (n < 18) && (op n).isSome)).length := by
  unfold generate_all_scenes_with_rate_limit
  rw [gaswrl_foldl]
  simp

/-- C2 counterexample: in imgCreator's generate_all_scenes_with_rate_limit over its
N = 18 scenes, when scene 2 fails by exception only 16 sleeps happen, not N-1 = 17,
because the sleep sits inside the try-block after the generation call and is
skipped when the item raises. -/
theorem imgCreator_delays_not_N_minus_1 :
    opSceneTwoRaises 2 = none ∧
    (generate_all_scenes_with_rate_limit opSceneTwoRaises).2 = 16 ∧
    ((16 : Nat) ≠ ((List.range 18).map (fun i => i + 1)).length - 1) :=
  ⟨rfl, rfl, by decide⟩

/-- C2 amended: the streamlit batch runner inserts its fixed delay before every item
except the first, so exactly N-1 delays regardless of which items fail (for N = 3
with item 2 failing, exactly 2 delays); imgCreator's 18-scene runner instead sleeps
once per scene that returns normally and is not the last, so an item failing by
exception contributes no delay. -/
theorem rate_limit_delay_counts (prompts : List String)
    (op : Nat → String → Option String) (opI : Nat → Option (Option String)) :
    (create_multiple_images_with_progress prompts op).2 = prompts.length - 1 ∧
    (create_multiple_images_with_progress ["a", "b", "c"]
        (fun i p => if i = 1 then none else some p)).2 = 2 ∧
    (generate_all_scenes_with_rate_limit opI).2
      = (((List.range 18).map (fun i => i + 1)).filter
          (fun n => decide (n < 18) && (opI n).isSome)).length :=
  ⟨cmiw_delays prompts op, by rw [cmiw_delays]; rfl, gaswrl_delays opI⟩

/-- C3: neither batch runner aborts on a per-item failure: the streamlit runner's
results list has one entry per prompt, each item's own outcome at its own index,
and imgCreator's results mapping has one entry per scene 1..18, holding the scene's
path on success and None when its try-block raised or its download failed. -/
theorem batch_records_each_item_independently (prompts : List String)
    (op : Nat → String → Option String) (opI : Nat → Option (Option String)) :
    (create_multiple_images_with_progress prompts op).1.length = prompts.length ∧
    (create_multiple_images_with_progress prompts op).1
      = prompts.enum.map (fun ip => op ip.1 ip.2) ∧
    (generate_all_scenes_with_rate_limit opI).1
      = ((List.range 18).map (fun i => i + 1)).map (fun n => (n, (opI n).join)) :=
  ⟨by rw [cmiw_results]; simp, cmiw_results prompts op, gaswrl_results opI⟩

/-- C7: the streamlit batch runner inserts zero inter-item delays when invoked
with a single item. -/
theorem single_item_batch_has_no_delay (p : String) (op : Nat → String → Option String) :
    (create_multiple_images_with_progress [p] op).2 = 0 := by
  rw [cmiw_delays]
  rfl

theorem retryRound_foldl (op1 : Nat → String → Option String) :
    ∀ (failed : List (Nat × String)) (acc : List (Nat × String) × List (Nat × String)),
      failed.foldl (retryStep op1) acc
        = (acc.1 ++ failed.filterMap (fun ip => (op1 ip.1 ip.2).map (fun r => (ip.1, r))),
           acc.2 ++ failed.filter (fun ip => (op1 ip.1 ip.2).isNone))
  | [], acc => by simp
  | ip :: failed, acc => by
    rw [List.foldl_cons, retryRound_foldl op1 failed]
    cases hop : op1 ip.1 ip.2 <;> simp [retryStep, hop]

/-- A retry round stores exactly the successes of the still-failed items and
keeps exactly the failures, in order. -/
theorem retryRound_eq (op1 : Nat → String → Option String)
    (failed results : List (Nat × String)) :
    retryRound op1 failed results
      = (results ++ failed.filterMap (fun ip => (op1 ip.1 ip.2).map (fun r => (ip.1, r))),
         failed.filter (fun ip => (op1 ip.1 ip.2).isNone)) := by
  unfold retryRound
  rw [retryRound_foldl]
  simp

theorem retryLoop_rounds_le (op : Nat → Nat → String → Option String) :
    ∀ (fuel rn : Nat) (failed results : List (Nat × String)),
      (retryLoop op fuel rn failed results).2.2 ≤ fuel
  | 0, _, _, _ => by simp [retryLoop]
  | fuel + 1, rn, failed, results => by
    unfold retryLoop
    by_cases hf : failed.isEmpty
    · simp [hf]
    · simp only [hf, Bool.false_eq_true, if_false]
      by_cases hs : (retryRound (op rn) failed results).2.isEmpty
      · simp [hs]
      · simp only [hs, Bool.false_eq_true, if_false]
        have := retryLoop_rounds_le op fuel (rn + 1)
          (retryRound (op rn) failed results).2 (retryRound (op rn) failed results).1
        omega

theorem retryLoop_remaining_subset (op : Nat → Nat → String → Option String) :
    ∀ (fuel rn : Nat) (failed results : List (Nat × String)) (ip : Nat × String),
      ip ∈ (retryLoop op fuel rn failed results).2.1 → ip ∈ failed
  | 0, _, failed, results, ip => by simp [retryLoop]
  | fuel + 1, rn, failed, results, ip => by
    unfold retryLoop
    by_cases hf : failed.isEmpty
    · simp [hf]
    · simp only [hf, Bool.false_eq_true, if_false]
      by_cases hs : (retryRound (op rn) failed results).2.isEmpty
      · simp only [hs, if_true]
        intro hmem
        have : ip ∈ (retryRound (op rn) failed results).2 := hmem
        rw [retryRound_eq] at this
        exact List.mem_of_mem_filter this
      · simp only [hs, Bool.false_eq_true, if_false]
        intro hmem
        have h1 := retryLoop_remaining_subset op fuel (rn + 1)
          (retryRound (op rn) failed results).2 (retryRound (op rn) failed results).1 ip hmem
        rw [retryRound_eq] at h1
        exact List.mem_of_mem_filter h1

theorem retryLoop_all_fail (op : Nat → Nat → String → Option String)
    (hop : ∀ rn i p, op rn i p = none) :
    ∀ (fuel rn : Nat) (failed results : List (Nat × String)), failed ≠ [] →
      retryLoop op fuel rn failed results = (results, failed, fuel)
  | 0, _, failed, results, _ => by simp [retryLoop]
  | fuel + 1, rn, failed, results, hne => by
    have hround : retryRound (op rn) failed results = (results, failed) := by
      rw [retryRound_eq]
      have h1 : failed.filterMap (fun ip => (op rn ip.1 ip.2).map (fun r => (ip.1, r))) = [] := by
        apply List.filterMap_eq_nil_iff.mpr
        intro ip _
        rw [hop]
        rfl
      have h2 : failed.filter (fun ip => (op rn ip.1 ip.2).isNone) = failed := by
        apply List.filter_eq_self.mpr
        intro a _
        rw [hop]
        rfl
      rw [h1, h2]
      simp
    unfold retryLoop
    rw [if_neg (by simpa [List.isEmpty_iff] using hne), hround]
    simp only []
    rw [if_neg (by simpa [List.isEmpty_iff] using hne)]
    rw [retryLoop_all_fail op hop fuel (rn + 1) failed results hne]

theorem retryLoop_all_succeed (op : Nat → Nat → String → Option String) (rn : Nat)
    (hop : ∀ i p, (op rn i p).isSome) (fuel : Nat) (failed results : List (Nat × String))
    (hne : failed ≠ []) (hfuel : 1 ≤ fuel) :
    (retryLoop op fuel rn failed results).2.1 = [] ∧
    (retryLoop op fuel rn failed results).2.2 = 1 := by
  obtain ⟨k, rfl⟩ : ∃ k, fuel = k + 1 := ⟨fuel - 1, by omega⟩
  have hround : (retryRound (op rn) failed results).2 = [] := by
    rw [retryRound_eq]
    apply List.filter_eq_nil_iff.mpr
    intro ip _
    have := hop ip.1 ip.2
    simp [Option.isNone_iff_eq_none] at this ⊢
    intro hc
    rw [hc] at this
    cases this
  unfold retryLoop
  rw [if_neg (by simpa [List.isEmpty_iff] using hne)]
  simp only [hround]
  simp

/-- C5: the retry pass never runs more than max_retries rounds; every remaining
failure was among the originally failed items (only the still-failed subset is
ever re-run); if every attempt keeps failing it exhausts exactly max_retries
rounds with all items still failed; and if every item succeeds in the first
round it stops after exactly one round with no failures left. -/
theorem retry_pass_round_behavior (op : Nat → Nat → String → Option String)
    (f : List (Nat × String)) (m : Nat) :
    (retry_failed_images op f m).2.2 ≤ m ∧
    (∀ ip, ip ∈ (retry_failed_images op f m).2.1 → ip ∈ f) ∧
    ((∀ rn i p, op rn i p = none) → f ≠ [] →
      (retry_failed_images op f m).2.2 = m ∧ (retry_failed_images op f m).2.1 = f) ∧
    ((∀ i p, (op 0 i p).isSome) → f ≠ [] → 1 ≤ m →
      (retry_failed_images op f m).2.2 = 1 ∧ (retry_failed_images op f m).2.1 = []) := by
  refine ⟨retryLoop_rounds_le op m 0 f [], ?_, ?_, ?_⟩
  · intro ip hip
    exact retryLoop_remaining_subset op m 0 f [] ip hip
  · intro hop hne
    unfold retry_failed_images
    rw [retryLoop_all_fail op hop m 0 f [] hne]
    exact ⟨rfl, rfl⟩
  · intro hop hne hm
    have := retryLoop_all_succeed op 0 hop m f [] hne hm
    exact ⟨this.2, this.1⟩

/-- Witness for C5: two failed items with max_retries = 3; with an always-failing
operation exactly 3 rounds run and both items remain failed, while with an
always-succeeding operation exactly 1 round runs and no failures remain. -/
theorem retry_pass_round_behavior_w :
    ((retry_failed_images (fun _ _ _ => none) [(0, "p"), (1, "q")] 3).2.2 = 3 ∧
     (retry_failed_images (fun _ _ _ => none) [(0, "p"), (1, "q")] 3).2.1 = [(0, "p"), (1, "q")]) ∧
    ((retry_failed_images (fun _ _ p => some p) [(0, "p"), (1, "q")] 3).2.2 = 1 ∧
     (retry_failed_images (fun _ _ p => some p) [(0, "p"), (1, "q")] 3).2.1 = []) :=
  ⟨(retry_pass_round_behavior (fun _ _ _ => none) [(0, "p"), (1, "q")] 3).2.2.1
      (fun _ _ _ => rfl) (by decide),
   (retry_pass_round_behavior (fun _ _ p => some p) [(0, "p"), (1, "q")] 3).2.2.2
      (fun _ _ => rfl) (by decide) (by decide)⟩

theorem char_toNat_letter (r : Nat) (hr : r < 26) : (Char.ofNat (65 + r)).toNat = 65 + r := by
  interval_cases r <;> decide

theorem colLetters_append (n : Nat) :
    ∀ acc : List Char, colLetters n acc = colLetters n [] ++ acc := by
  induction n using Nat.strong_induction_on with
  | _ n ih =>
    match n with
    | 0 =>
      intro acc
      simp [colLetters]
    | m + 1 =>
      intro acc
      have hlt : m / 26 < m + 1 := Nat.lt_succ_of_le (Nat.div_le_self m 26)
      rw [colLetters, colLetters]
      rw [ih (m / 26) hlt (Char.ofNat (65 + m % 26) :: acc),
        ih (m / 26) hlt [Char.ofNat (65 + m % 26)]]
      simp

theorem colVal_colLetters (n : Nat) : colVal (colLetters n []) = n := by
  induction n using Nat.strong_induction_on with
  | _ n ih =>
    match n with
    | 0 => simp [colLetters, colVal]
    | m + 1 =>
      have hlt : m / 26 < m + 1 := Nat.lt_succ_of_le (Nat.div_le_self m 26)
      rw [colLetters, colLetters_append (m / 26) [Char.ofNat (65 + m % 26)]]
      unfold colVal
      rw [List.foldl_append]
      have hv : colVal (colLetters (m / 26) []) = m / 26 := ih (m / 26) hlt
      unfold colVal at hv
      rw [hv]
      simp only [List.foldl_cons, List.foldl_nil]
      rw [char_toNat_letter (m % 26) (Nat.mod_lt m (by omega))]
      omega

/-- C6: col_num_to_letter maps 1 to A, 26 to Z, 27 to AA, 52 to AZ and 53 to BA,
and for every positive n the letter string it produces denotes n again. -/
theorem col_num_to_letter_spec :
    col_num_to_letter 1 = "A" ∧ col_num_to_letter 26 = "Z" ∧ col_num_to_letter 27 = "AA" ∧
    col_num_to_letter 52 = "AZ" ∧ col_num_to_letter 53 = "BA" ∧
    ∀ n : Nat, 0 < n → letter_to_num (col_num_to_letter n) = n := by
  refine ⟨?_, ?_, ?_, ?_, ?_, ?_⟩
  · unfold col_num_to_letter
    simp [colLetters]
  · unfold col_num_to_letter
    simp [colLetters]
  · unfold col_num_to_letter
    simp [colLetters]
  · unfold col_num_to_letter
    simp [colLetters]
  · unfold col_num_to_letter
    simp [colLetters]
  · intro n _
    show colVal (colLetters n []) = n
    exact colVal_colLetters n

/-- Witness for C6's round-trip at the concrete column number 53. -/
theorem col_num_to_letter_spec_w :
    0 < 53 ∧ letter_to_num (col_num_to_letter 53) = 53 :=
  ⟨by decide, col_num_to_letter_spec.2.2.2.2.2 53 (by decide)⟩

/-- C8: whatever order the parallel workers complete in, the accumulated results
are sorted by original row index before write-back, so the update sequence sent
to the spreadsheet is ordered by row index, and two completion orders of the
same results yield the same multiset of updates. -/
theorem write_back_sorted_by_row (sheet col : String) (l l2 : List AnalysisResult)
    (hperm : l.Perm l2) :
    ((sortResults l).map AnalysisResult.row_index).Pairwise (fun a b => a ≤ b) ∧
    (sortResults l).Perm l ∧
    (buildBatchData sheet col l).Perm (buildBatchData sheet col l2) := by
  have htrans : ∀ (a b c : AnalysisResult),
      decide (a.row_index ≤ b.row_index) → decide (b.row_index ≤ c.row_index) →
      decide (a.row_index ≤ c.row_index) = true := by
    intro a b c hab hbc
    simp only [decide_eq_true_eq] at hab hbc ⊢
    omega
  have htotal : ∀ (a b : AnalysisResult),
      (decide (a.row_index ≤ b.row_index) || decide (b.row_index ≤ a.row_index)) = true := by
    intro a b
    simp only [Bool.or_eq_true, decide_eq_true_eq]
    omega
  have hsorted : (sortResults l).Pairwise
      (fun a b => decide (a.row_index ≤ b.row_index) = true) := by
    unfold sortResults
    exact List.sorted_mergeSort htrans htotal l
  refine ⟨?_, List.mergeSort_perm l _, ?_⟩
  · rw [List.pairwise_map]
    exact hsorted.imp (fun h => by simpa using h)
  · have h1 : (sortResults l).Perm (sortResults l2) :=
      (List.mergeSort_perm l _).trans (hperm.trans (List.mergeSort_perm l2 _).symm)
    exact h1.map _

/-- Witness for C8 on two completion orders of the same two row results. -/
theorem write_back_sorted_by_row_w :
    resultsOrderA.Perm resultsOrderB ∧
    (((sortResults resultsOrderA).map AnalysisResult.row_index).Pairwise
        (fun a b => a ≤ b) ∧
      (sortResults resultsOrderA).Perm resultsOrderA ∧
      (buildBatchData "sheet" "C" resultsOrderA).Perm
        (buildBatchData "sheet" "C" resultsOrderB)) :=
  ⟨by decide, write_back_sorted_by_row "sheet" "C" resultsOrderA resultsOrderB (by decide)⟩

/-- C9: generate_image returns the output file path exactly when the HTTP download
of the generated image answers status 200; any other status returns None without
raising, so the batch loop records that scene as None through its normal-return
branch rather than its exception branch. -/
theorem generate_image_path_iff_200 (n s : Nat) (ts f : String) (statuses : Nat → Nat) :
    (generate_image n ts (some f) s = some f ↔ s = 200) ∧
    (s ≠ 200 → generate_image n ts (some f) s = none) ∧
    (generate_all_scenes_with_rate_limit
        (fun k => some (generate_image k ts (some (sceneFile k)) (statuses k)))).1
      = ((List.range 18).map (fun i => i + 1)).map
          (fun k => (k, if statuses k = 200 then some (sceneFile k) else none)) := by
  refine ⟨?_, ?_, ?_⟩
  · unfold generate_image
    by_cases hs : s = 200
    · simp [hs]
    · simp [hs]
  · intro hs
    simp [generate_image, hs]
  · rw [gaswrl_results]
    apply List.map_congr_left
    intro k _
    unfold generate_image
    by_cases hs : statuses k = 200
    · simp [hs, Option.join]
    · simp [hs, Option.join]

/-- Witness for C9 at the concrete failing status 404. -/
theorem generate_image_path_iff_200_w :
    (404 : Nat) ≠ 200 ∧ generate_image 1 "20240101_000000" (some (sceneFile 1)) 404 = none :=
  ⟨by decide,
   (generate_image_path_iff_200 1 404 "20240101_000000" (sceneFile 1) (fun _ => 200)).2.1
     (by decide)⟩

/-- C10: generate_scene_image raises its range ValueError for every scene_number
outside 1..18 and its not-found ValueError for every in-range scene_number whose
key is absent from the scenes data, in both cases with a result independent of the
image operation (the errors are raised before any image-API call); the image
operation's result is returned exactly when the number is in range and the key
present. -/
theorem scene_image_validations_precede_api_call (scenes : List (String × Scene))
    (n : Int) (img : Scene → Option String) :
    ((n < 1 ∨ n > 18) → ∀ g : Scene → Option String,
      generate_scene_image scenes n g
        = Except.error "Scene number must be between 1 and 18") ∧
    (1 ≤ n → n ≤ 18 → scenes.lookup ("scene_" ++ toString n) = none →
      ∀ g : Scene → Option String,
        generate_scene_image scenes n g
          = Except.error ("Scene " ++ toString n ++ " not found in the data")) ∧
    (1 ≤ n → n ≤ 18 → ∀ sc, scenes.lookup ("scene_" ++ toString n) = some sc →
      generate_scene_image scenes n img = Except.ok (img sc)) := by
  refine ⟨?_, ?_, ?_⟩
  · intro h g
    unfold generate_scene_image
    rw [if_pos h]
  · intro h1 h2 hlk g
    unfold generate_scene_image
    rw [if_neg (by omega), hlk]
  · intro h1 h2 sc hlk
    unfold generate_scene_image
    rw [if_neg (by omega), hlk]

/-- Witness for C10: scene 7 is in range but absent from the mapping missing
scene_7, and the not-found error is produced whatever the image operation is. -/
theorem scene_image_validations_precede_api_call_w :
    ((1 : Int) ≤ 7 ∧ (7 : Int) ≤ 18 ∧
      scenesMissing7.lookup ("scene_" ++ toString (7 : Int)) = none) ∧
    generate_scene_image scenesMissing7 7 (fun _ => none)
      = Except.error ("Scene " ++ toString (7 : Int) ++ " not found in the data") :=
  ⟨⟨by decide, by decide, by decide⟩,
   (scene_image_validations_precede_api_call scenesMissing7 7 (fun _ => none)).2.1
     (by decide) (by decide) (by decide) (fun _ => none)⟩
